import Mathlib

/-!
Verification of the `late-static` crate (src/src/lib.rs).

The crate provides one type, `LateStatic<T>`, wrapping an
`UnsafeCell<Option<T>>`.  We embed it shallowly: the cell's content is an
`Option T`, and every Rust method becomes an explicit state transformer
returning its result together with the state of the cell after the call.
A Rust `panic!` is modelled as `Except.error` carrying the exact panic
message; since the source panics before performing any write, the state
returned alongside an error is the unchanged input state.
-/

/-- Embedding of `pub struct LateStatic<T> { val: UnsafeCell<Option<T>> }`.
The `UnsafeCell` is transparent to the values stored, so the field is the
`Option T` it holds. -/
structure LateStatic (T : Type) where
  val : Option T
  deriving Repr, DecidableEq

namespace LateStatic

/-- Embedding of `pub const fn new() -> Self`, which builds the container
around `UnsafeCell::new(None)`. -/
def new (T : Type) : LateStatic T :=
  ⟨none⟩

/-- Embedding of `pub unsafe fn has_value(instance: &LateStatic<T>) -> bool`:
it reads the option through the cell and returns `option.is_some()`.  The
body performs no write, so the state after the call is the input state. -/
def has_value {T : Type} (s : LateStatic T) : Bool × LateStatic T :=
  (s.val.isSome, s)

/-- Embedding of `pub unsafe fn assign(instance: &LateStatic<T>, val: T)`:
if the option `is_some` it panics with the double-assignment message
(leaving the cell as it was); otherwise it stores `Some(val)`. -/
def assign {T : Type} (s : LateStatic T) (v : T) : Except String Unit × LateStatic T :=
  if s.val.isSome then
    (Except.error ("Second assignment to late static"), s)
  else
    (Except.ok (), ⟨some v⟩)

/-- Embedding of `pub unsafe fn clear(instance: &LateStatic<T>)`: if
`has_value` is false it panics with the clear-without-value message
(leaving the cell as it was); otherwise it writes `None` into the cell. -/
def clear {T : Type} (s : LateStatic T) : Except String Unit × LateStatic T :=
  if !(has_value s).1 then
    (Except.error ("Tried to clear a late static without a value"), s)
  else
    (Except.ok (), ⟨none⟩)

/-- Embedding of `Deref::deref(&self) -> &T`: it matches on the option,
yielding the contained value when `Some` and panicking with the
dereference-before-assignment message when `None`.  No write occurs, so
the state after the call is the input state. -/
def deref {T : Type} (s : LateStatic T) : Except String T × LateStatic T :=
  match s.val with
  | some v => (Except.ok v, s)
  | none => (Except.error ("Dereference of late static before a value was assigned"), s)

/-- Embedding of `DerefMut::deref_mut(&mut self) -> &mut T`: same match as
`deref` on the option, yielding the contained value when `Some` and
panicking with the same dereference-before-assignment message when
`None`.  Obtaining the mutable reference itself writes nothing. -/
def deref_mut {T : Type} (s : LateStatic T) : Except String T × LateStatic T :=
  match s.val with
  | some v => (Except.ok v, s)
  | none => (Except.error ("Dereference of late static before a value was assigned"), s)

/-- A write performed through the reference returned by `deref_mut`:
the caller obtains `&mut T` via `deref_mut` and applies an in-place update
`f` to the referent.  If the container is empty, `deref_mut` panics and no
write happens; otherwise the stored value `v` becomes `f v`. -/
def deref_mut_write {T : Type} (s : LateStatic T) (f : T → T) : Except String Unit × LateStatic T :=
  match s.val with
  | some v => (Except.ok (), ⟨some (f v)⟩)
  | none => (Except.error ("Dereference of late static before a value was assigned"), s)

end LateStatic

/-- The abstract state machine of the spec: a container is either EMPTY or
OCCUPIED with a value. -/
inductive MachineState (T : Type) where
  | EMPTY : MachineState T
  | OCCUPIED : T → MachineState T
  deriving Repr, DecidableEq

/-- Abstraction function from the embedded container to the spec's state
machine: a `None` slot is EMPTY, a `Some v` slot is OCCUPIED with `v`. -/
def LateStatic.toState {T : Type} (s : LateStatic T) : MachineState T :=
  match s.val with
  | none => MachineState.EMPTY
  | some v => MachineState.OCCUPIED v

/-- The re-arming sequence of the spec: `assign v1; clear; assign v2`,
with any panic along the way surfaced as an error. -/
def LateStatic.rearm {T : Type} (v1 v2 : T) (s : LateStatic T) : Except String (LateStatic T) :=
  match LateStatic.assign s v1 with
  | (Except.ok _, s1) =>
    match LateStatic.clear s1 with
    | (Except.ok _, s2) =>
      match LateStatic.assign s2 v2 with
      | (Except.ok _, s3) => Except.ok s3
      | (Except.error e, _) => Except.error e
    | (Except.error e, _) => Except.error e
  | (Except.error e, _) => Except.error e

/-- `n` rounds of `assign v; clear`, with any panic surfaced as an error.
Used to show the container has no terminal state: it can cycle between
EMPTY and OCCUPIED indefinitely. -/
def LateStatic.cycleN {T : Type} (v : T) : Nat → LateStatic T → Except String (LateStatic T)
  | 0, s => Except.ok s
  | n + 1, s =>
    match LateStatic.assign s v with
    | (Except.ok _, s1) =>
      match LateStatic.clear s1 with
      | (Except.ok _, s2) => LateStatic.cycleN v n s2
      | (Except.error e, _) => Except.error e
    | (Except.error e, _) => Except.error e

/-- The record type of the crate's own tests: `struct Foo { pub value: u32 }`,
used to observe field mutation through the write view. -/
structure Foo where
  value : Nat
  deriving Repr, DecidableEq

/-- C1: for every type `T`, a freshly constructed container
(`LateStatic::new()`) is in the EMPTY state: `has_value` returns `false`
on it before any assignment. -/
theorem c1_new_has_no_value (T : Type) :
    (LateStatic.has_value (LateStatic.new T)).1 = false := rfl

/-- C2: for every value `v`, `assign` on an EMPTY container (one whose
`has_value` is `false`) returns normally, transitions the container to
OCCUPIED(`v`), and afterwards `has_value` is `true` and `deref` yields
exactly `v`. -/
theorem c2_assign_on_empty (T : Type) (s : LateStatic T) (v : T)
    (h : (LateStatic.has_value s).1 = false) :
    LateStatic.assign s v = (Except.ok (), ⟨some v⟩) ∧
    (LateStatic.has_value (⟨some v⟩ : LateStatic T)).1 = true ∧
    (LateStatic.deref (⟨some v⟩ : LateStatic T)).1 = Except.ok v := by
  simp only [LateStatic.has_value] at h
  refine ⟨?_, rfl, rfl⟩
  simp [LateStatic.assign, h]

/-- Witness for C2: assigning 42 to a fresh `LateStatic Nat`. -/
theorem c2_assign_on_empty_witness :
    LateStatic.assign (LateStatic.new Nat) 42 = (Except.ok (), ⟨some 42⟩) ∧
    (LateStatic.has_value (⟨some 42⟩ : LateStatic Nat)).1 = true ∧
    (LateStatic.deref (⟨some 42⟩ : LateStatic Nat)).1 = Except.ok 42 :=
  c2_assign_on_empty Nat (LateStatic.new Nat) 42 rfl

/-- C3: for every OCCUPIED container holding `v1` and every value `v2`,
`assign` panics with "Second assignment to late static" and the stored
value is still `v1` afterwards (no silent overwrite). -/
theorem c3_double_assign_fatal (T : Type) (s : LateStatic T) (v1 v2 : T)
    (h : s.val = some v1) :
    LateStatic.assign s v2 = (Except.error ("Second assignment to late static"), s) ∧
    (LateStatic.assign s v2).2.val = some v1 := by
  constructor
  · simp [LateStatic.assign, h]
  · simp [LateStatic.assign, h]

/-- Witness for C3: `assign 2` on a `LateStatic Nat` already holding 1. -/
theorem c3_double_assign_fatal_witness :
    LateStatic.assign (⟨some 1⟩ : LateStatic Nat) 2 =
      (Except.error ("Second assignment to late static"), ⟨some 1⟩) ∧
    (LateStatic.assign (⟨some 1⟩ : LateStatic Nat) 2).2.val = some 1 :=
  c3_double_assign_fatal Nat ⟨some 1⟩ 1 2 rfl

/-- C4: `clear` on an OCCUPIED container (holding any `v`) returns
normally and transitions it to EMPTY (`has_value` is `false` afterwards);
`clear` on an EMPTY container panics with "Tried to clear a late static
without a value" and the container is still EMPTY. -/
theorem c4_clear (T : Type) (v : T) :
    LateStatic.clear (⟨some v⟩ : LateStatic T) = (Except.ok (), ⟨none⟩) ∧
    (LateStatic.has_value ((LateStatic.clear (⟨some v⟩ : LateStatic T)).2)).1 = false ∧
    LateStatic.clear (⟨none⟩ : LateStatic T) =
      (Except.error ("Tried to clear a late static without a value"), ⟨none⟩) :=
  ⟨rfl, rfl, rfl⟩

/-- C5: `deref` and `deref_mut` on an EMPTY container both panic with
"Dereference of late static before a value was assigned"; neither yields
an `ok` value. -/
theorem c5_deref_empty_fatal (T : Type) :
    (LateStatic.deref (⟨none⟩ : LateStatic T)).1 =
      Except.error ("Dereference of late static before a value was assigned") ∧
    (LateStatic.deref_mut (⟨none⟩ : LateStatic T)).1 =
      Except.error ("Dereference of late static before a value was assigned") ∧
    (∀ v : T, (LateStatic.deref (⟨none⟩ : LateStatic T)).1 ≠ Except.ok v) ∧
    (∀ v : T, (LateStatic.deref_mut (⟨none⟩ : LateStatic T)).1 ≠ Except.ok v) := by
  refine ⟨rfl, rfl, ?_, ?_⟩ <;> intro v <;> simp [LateStatic.deref, LateStatic.deref_mut]

/-- C6: for every pair of values `v1, v2`, the sequence
`assign v1; clear; assign v2` starting from an EMPTY container succeeds
with no fatal error, and `deref` afterwards yields exactly `v2`. -/
theorem c6_rearm_round_trip (T : Type) (v1 v2 : T) :
    LateStatic.rearm v1 v2 (LateStatic.new T) = Except.ok ⟨some v2⟩ ∧
    (LateStatic.deref (⟨some v2⟩ : LateStatic T)).1 = Except.ok v2 :=
  ⟨rfl, rfl⟩

/-- C7: `has_value` returns `true` iff the container is OCCUPIED and
`false` iff it is EMPTY, and it has no side effects: the container state
after the call is identical to the state before. -/
theorem c7_has_value_iff_occupied (T : Type) (s : LateStatic T) :
    ((LateStatic.has_value s).1 = true ↔ ∃ v, LateStatic.toState s = MachineState.OCCUPIED v) ∧
    ((LateStatic.has_value s).1 = false ↔ LateStatic.toState s = MachineState.EMPTY) ∧
    (LateStatic.has_value s).2 = s := by
  obtain ⟨val⟩ := s
  cases val <;> simp [LateStatic.has_value, LateStatic.toState]

/-- C8: mutations made through the write view are durably observed by
subsequent reads: on an OCCUPIED `LateStatic Foo`, after setting the
`value` field to `x` through `deref_mut`, reading through `deref` yields
a `Foo` whose `value` field is `x`. -/
theorem c8_mut_write_then_read (s : LateStatic Foo) (v : Foo) (x : Nat)
    (h : s.val = some v) :
    LateStatic.deref_mut_write s (fun _ => Foo.mk x) = (Except.ok (), ⟨some (Foo.mk x)⟩) ∧
    (LateStatic.deref ((LateStatic.deref_mut_write s (fun _ => Foo.mk x)).2)).1 =
      Except.ok (Foo.mk x) ∧
    (Foo.mk x).value = x := by
  refine ⟨?_, ?_, rfl⟩ <;> simp [LateStatic.deref_mut_write, LateStatic.deref, h]

/-- Witness for C8: assign `Foo.mk 42`, set the field to 37 through the
write view, read 37 back through the read view. -/
theorem c8_mut_write_then_read_witness :
    LateStatic.deref_mut_write (⟨some (Foo.mk 42)⟩ : LateStatic Foo) (fun _ => Foo.mk 37) =
      (Except.ok (), ⟨some (Foo.mk 37)⟩) ∧
    (LateStatic.deref ((LateStatic.deref_mut_write (⟨some (Foo.mk 42)⟩ : LateStatic Foo)
      (fun _ => Foo.mk 37)).2)).1 = Except.ok (Foo.mk 37) ∧
    (Foo.mk 37).value = 37 :=
  c8_mut_write_then_read ⟨some (Foo.mk 42)⟩ (Foo.mk 42) 37 rfl

/-- Helper for C9: `n` rounds of `assign v; clear` from a fresh container
always succeed and return the container to its fresh EMPTY state. -/
theorem cycleN_from_new (T : Type) (v : T) :
    ∀ n : Nat, LateStatic.cycleN v n (LateStatic.new T) = Except.ok (LateStatic.new T) := by
  intro n
  induction n with
  | zero => rfl
  | succ n ih => exact ih

/-- C9: the state machine of the container: every container is in exactly
one of the two states EMPTY / OCCUPIED; the fresh container is EMPTY;
`assign` sends EMPTY to OCCUPIED and is fatal on OCCUPIED; `clear` sends
OCCUPIED to EMPTY and is fatal on EMPTY; `has_value`, `deref` and
`deref_mut` never change the state; and there is no terminal state: `n`
rounds of `assign; clear` succeed from a fresh container for every `n`. -/
theorem c9_state_machine (T : Type) (v w : T) (n : Nat) :
    (∀ s : LateStatic T,
      LateStatic.toState s = MachineState.EMPTY ∨
        ∃ u, LateStatic.toState s = MachineState.OCCUPIED u) ∧
    (∀ s : LateStatic T, ∀ u : T,
      LateStatic.toState s = MachineState.EMPTY →
        LateStatic.toState s ≠ MachineState.OCCUPIED u) ∧
    LateStatic.toState (LateStatic.new T) = MachineState.EMPTY ∧
    LateStatic.assign (⟨none⟩ : LateStatic T) v = (Except.ok (), ⟨some v⟩) ∧
    LateStatic.toState (⟨some v⟩ : LateStatic T) = MachineState.OCCUPIED v ∧
    (LateStatic.assign (⟨some w⟩ : LateStatic T) v).1 =
      Except.error ("Second assignment to late static") ∧
    LateStatic.clear (⟨some w⟩ : LateStatic T) = (Except.ok (), ⟨none⟩) ∧
    (LateStatic.clear (⟨none⟩ : LateStatic T)).1 =
      Except.error ("Tried to clear a late static without a value") ∧
    (∀ s : LateStatic T,
      (LateStatic.has_value s).2 = s ∧ (LateStatic.deref s).2 = s ∧
        (LateStatic.deref_mut s).2 = s) ∧
    LateStatic.cycleN v n (LateStatic.new T) = Except.ok (LateStatic.new T) := by
  refine ⟨?_, ?_, rfl, rfl, rfl, rfl, rfl, rfl, ?_, cycleN_from_new T v n⟩
  · intro s
    obtain ⟨val⟩ := s
    cases val <;> simp [LateStatic.toState]
  · intro s u hE
    obtain ⟨val⟩ := s
    cases val <;> simp_all [LateStatic.toState]
  · intro s
    obtain ⟨val⟩ := s
    cases val <;> simp [LateStatic.has_value, LateStatic.deref, LateStatic.deref_mut]

/-- Witness for C9 at `T = Nat`, `v = 1`, `w = 2`, `n = 3`; the inner
implications are discharged at the empty container. -/
theorem c9_state_machine_witness :
    LateStatic.toState (LateStatic.new Nat) = MachineState.EMPTY ∧
    LateStatic.toState (⟨none⟩ : LateStatic Nat) ≠ MachineState.OCCUPIED 5 ∧
    LateStatic.cycleN 1 3 (LateStatic.new Nat) = Except.ok (LateStatic.new Nat) := by
  have h := c9_state_machine Nat 1 2 3
  exact ⟨h.2.2.1, h.2.1 ⟨none⟩ 5 rfl, h.2.2.2.2.2.2.2.2.2⟩

/-- C10: on every OCCUPIED container the read view and the write view
project the same contained value: `deref` and `deref_mut` both yield
exactly the stored value. -/
theorem c10_views_agree (T : Type) (s : LateStatic T) (v : T)
    (h : s.val = some v) :
    (LateStatic.deref s).1 = Except.ok v ∧
    (LateStatic.deref_mut s).1 = Except.ok v ∧
    (LateStatic.deref s).1 = (LateStatic.deref_mut s).1 := by
  refine ⟨?_, ?_, ?_⟩ <;> simp [LateStatic.deref, LateStatic.deref_mut, h]

/-- Witness for C10: both views of a `LateStatic Nat` holding 5 yield 5. -/
theorem c10_views_agree_witness :
    (LateStatic.deref (⟨some 5⟩ : LateStatic Nat)).1 = Except.ok 5 ∧
    (LateStatic.deref_mut (⟨some 5⟩ : LateStatic Nat)).1 = Except.ok 5 ∧
    (LateStatic.deref (⟨some 5⟩ : LateStatic Nat)).1 =
      (LateStatic.deref_mut (⟨some 5⟩ : LateStatic Nat)).1 :=
  c10_views_agree Nat ⟨some 5⟩ 5 rfl
